import Mathlib

set_option maxHeartbeats 1000000

/-!
Shallow embedding of `src/dashboard/app.py` (Chicago crime dashboard).

The script has two bulk loaders (`load_data` with offset pagination and
`load_data_for_evolution_chart` with year-partitioned pagination), a
preprocessing block that coerces the `date` column and derives calendar
fields (lines 100-106), and group-by aggregations (`crimes_by_hour`,
`crimes_by_weekday`, and the `(year, district)` group-by inside
`chart_regional_crime_trends`).

External collaborators are modelled abstractly:
  * the HTTP endpoint plus `pd.read_csv` is a function from the request
    offset (resp. year) to the rows of the returned page, wrapped in
    `Except` where the code catches exceptions;
  * `pd.to_datetime` on one cell is modelled by `RawDate`: a text cell
    either parses to a structured timestamp or it does not, and
    `errors="coerce"` maps the unparseable case to a null marker (`none`).
Machine behaviour that the claims depend on is modelled faithfully:
`pd.concat` on an empty list of chunks raises `ValueError`, a group-by on
a plain (non-categorical) column keeps only the distinct non-null keys in
ascending order and drops NaN keys, and a group-by on an ordered
categorical column with `observed=False` enumerates every category in
category order, including zero-count ones.
-/

namespace Dashboard

/-- Constant `LIMIT = 50000` from the script header. -/
def LIMIT : Nat := 50000

/-- Constant `MAX_PAGES = 1000` from the script header. -/
def MAX_PAGES : Nat := 1000

/-- A structured date-time value, recording the calendar components the
dashboard later projects out (`dt.year`, `dt.month`, `dt.hour`,
`dt.day_name()`).  An hour is always in `0..23` and a weekday in `0..6`
(0 = Monday), which the `Fin` types enforce. -/
structure DateTime where
  year : Int
  month : Nat
  hour : Fin 24
  weekday : Fin 7
  deriving DecidableEq, Repr

/-- A raw `date` cell as fetched from the source: either text that parses
to a structured timestamp, or text that does not parse. -/
inductive RawDate where
  | valid : DateTime → RawDate
  | invalid : String → RawDate
  deriving DecidableEq, Repr

/-- `pd.to_datetime(cell, errors="coerce")` on one cell: a parseable value
becomes the structured timestamp, an unparseable value becomes the null
marker `none` (NaT), and no input raises. -/
def to_datetime_coerce : RawDate → Option DateTime
  | RawDate.valid dt => some dt
  | RawDate.invalid _ => none

/-- One fetched incident record (one CSV row).  Only the columns the
claims touch are modelled by name (`date`, `district`); the remaining
selected columns (id, case number, block, codes, flags, coordinates, ...)
are carried opaquely in `other` so that rows stay distinguishable. -/
structure Row where
  date : RawDate
  district : Option Int
  other : String
  deriving DecidableEq, Repr

/-- A record after line 60 (`df["date"] = pd.to_datetime(df["date"],
errors="coerce")`): the `date` column now holds a structured timestamp or
the null marker. -/
structure CRow where
  date : Option DateTime
  district : Option Int
  other : String
  deriving DecidableEq, Repr

/-- Line 60 applied to one row. -/
def coerceRow (r : Row) : CRow :=
  { date := to_datetime_coerce r.date, district := r.district, other := r.other }

/-- The loop body of `load_data` (lines 36-57).  `source offset` is the
page returned by the HTTP GET at that `$offset` (request `$limit = LIMIT`
rows ordered by date).  The first component collects the appended chunks,
the second the offsets actually requested; the loop breaks at the first
empty page and otherwise advances the offset by `LIMIT`, for at most
`fuel` iterations (`for page in range(MAX_PAGES)`). -/
def load_loop (source : Nat → List Row) : Nat → Nat → List (List Row) × List Nat
  | 0, _ => ([], [])
  | fuel + 1, offset =>
    if (source offset).isEmpty then ([], [offset])
    else
      let rest := load_loop source fuel (offset + LIMIT)
      (source offset :: rest.1, offset :: rest.2)

/-- `load_data` (lines 31-63): run the pagination loop from offset 0, then
`pd.concat(chunks)` — which raises `ValueError` when no chunk was
collected — and coerce the `date` column of the concatenated table. -/
def load_data (source : Nat → List Row) : Except String (List CRow) :=
  let chunks := (load_loop source MAX_PAGES 0).1
  if chunks.isEmpty then Except.error "No objects to concatenate"
  else Except.ok (chunks.flatten.map coerceRow)

/-- The offsets `load_data` actually requests, in request order. -/
def load_data_offsets (source : Nat → List Row) : List Nat :=
  (load_loop source MAX_PAGES 0).2

/-- One fetched historical record for the evolution chart
(`$select = date,year,latitude,longitude`). -/
structure HRow where
  date : RawDate
  year : Option Int
  latitude : Option Int
  longitude : Option Int
  deriving DecidableEq, Repr

/-- The fixed year range `range(2001, 2025)` of the evolution loader:
the 24 years 2001..2024 inclusive. -/
def evolutionYears : List Nat := List.range' 2001 24

/-- The loop body of `load_data_for_evolution_chart` (lines 71-85).
`ysource yr` is the outcome of `pd.read_csv` for the `year=yr` request:
`Except.error` when the request raises.  Exactly one request is issued per
year (second component); a failing year is skipped (`except: print`) while
a succeeding year's chunk is appended (first component). -/
def evolution_loop (ysource : Nat → Except String (List HRow)) :
    List Nat → List (List HRow) × List Nat
  | [] => ([], [])
  | yr :: yrs =>
    let rest := evolution_loop ysource yrs
    match ysource yr with
    | Except.ok chunk => (chunk :: rest.1, yr :: rest.2)
    | Except.error _ => (rest.1, yr :: rest.2)

/-- `load_data_for_evolution_chart` (lines 65-90): fetch each year of the
fixed range, then `pd.concat(chunks)` — raising `ValueError` when every
year failed and no chunk was collected. -/
def load_data_for_evolution_chart (ysource : Nat → Except String (List HRow)) :
    Except String (List HRow) :=
  let chunks := (evolution_loop ysource evolutionYears).1
  if chunks.isEmpty then Except.error "No objects to concatenate"
  else Except.ok chunks.flatten

/-- The years `load_data_for_evolution_chart` actually requests, in
request order. -/
def evolution_requests (ysource : Nat → Except String (List HRow)) : List Nat :=
  (evolution_loop ysource evolutionYears).2

/-- The fixed weekday ordering of line 105:
`order = ["Monday",...,"Sunday"]`. -/
def order : List String :=
  ["Monday", "Tuesday", "Wednesday", "Thursday", "Friday", "Saturday", "Sunday"]

/-- `dt.day_name()` for a parsed timestamp: the canonical name of its
weekday component (0 = Monday ... 6 = Sunday). -/
def day_name (w : Fin 7) : String :=
  match w.val with
  | 0 => "Monday"
  | 1 => "Tuesday"
  | 2 => "Wednesday"
  | 3 => "Thursday"
  | 4 => "Friday"
  | 5 => "Saturday"
  | _ => "Sunday"

/-- A record after the preprocessing block (lines 100-106): the coerced
`date` column plus the derived `year`, `month`, `hour` and `weekday`
columns.  The `weekday` column is the ordered categorical of line 106; it
is stored as the category code (`Fin 7`, Monday first), `day_name`
recovering the display string. -/
structure DRow where
  date : Option DateTime
  district : Option Int
  other : String
  year : Option Int
  month : Option Nat
  hour : Option (Fin 24)
  weekday : Option (Fin 7)
  deriving DecidableEq, Repr

/-- Lines 100-106 applied to one row, given the (already coerced) `date`
cell and the untouched columns.  `pd.to_datetime` on a cell that is
already a structured timestamp or NaT is the identity, and each derived
cell (`dt.year`, `dt.month`, `dt.hour`, `dt.day_name()`) is NaN on a NaT
date. -/
def deriveRow (date : Option DateTime) (district : Option Int) (other : String) : DRow :=
  { date := date
    district := district
    other := other
    year := date.map (fun dt => dt.year)
    month := date.map (fun dt => dt.month)
    hour := date.map (fun dt => dt.hour)
    weekday := date.map (fun dt => dt.weekday) }

/-- The preprocessing block (lines 100-106) applied to the table returned
by `load_data`. -/
def preprocess (t : List CRow) : List DRow :=
  t.map (fun r => deriveRow r.date r.district r.other)

/-- Lines 100-106 re-run on a table that already carries the derived
columns: every derived column is recomputed from `date` and overwritten,
and `date` itself is re-parsed (the identity on a datetime column). -/
def reDerive (t : List DRow) : List DRow :=
  t.map (fun r => deriveRow r.date r.district r.other)

/-- The group size of `df.groupby("hour", observed=False).size()` at hour
`h`: the number of rows whose derived hour is `h`.  Rows with a NaN hour
(unparseable timestamp) belong to no group. -/
def hourCount (t : List DRow) (h : Fin 24) : Nat :=
  (t.filter (fun r => decide (r.hour = some h))).length

/-- `crimes_by_hour = df.groupby("hour", observed=False).size()` (line
108).  The `hour` column is a plain numeric column, so the group keys are
the distinct non-null hour values present in the data, in ascending
order; hours absent from the data produce no key.  Since every hour value
lies in `0..23`, those keys are the ascending enumeration of `0..23`
filtered to the hours that occur. -/
def crimes_by_hour (t : List DRow) : List (Fin 24 × Nat) :=
  ((List.finRange 24).filter (fun h => decide (0 < hourCount t h))).map
    (fun h => (h, hourCount t h))

/-- The group size of `df.groupby("weekday", observed=False).size()` at a
given weekday: the number of rows whose derived weekday is `w`. -/
def weekdayCount (t : List DRow) (w : Fin 7) : Nat :=
  (t.filter (fun r => decide (r.weekday = some w))).length

/-- `crimes_by_weekday = df.groupby("weekday", observed=False).size()`
(line 109).  The `weekday` column is an ordered categorical with the
seven categories of `order`, and `observed=False` makes the group-by
enumerate every category in category order, a category absent from the
data getting a zero count; NaN cells (unparseable timestamps) belong to
no group. -/
def crimes_by_weekday (t : List DRow) : List (String × Nat) :=
  (List.finRange 7).map (fun w => (day_name w, weekdayCount t w))

/-- The group size of
`df.groupby(['year', 'district']).size()` (line 201) at a `(year,
district)` pair: the number of rows carrying exactly those non-null
values.  Rows with a NaN year or district belong to no group. -/
def ydCount (t : List DRow) (y : Int) (d : Int) : Nat :=
  (t.filter (fun r => decide (r.year = some y ∧ r.district = some d))).length

/-- `target_districts = [1.0, 11.0, 16.0]` of line 203. -/
def target_districts : List Int := [1, 11, 16]

/-- The `df_trend` filter of line 205 followed by the per-district count
lookup: the count of a `(year, district)` pair kept for display, zero for
districts outside the target set. -/
def trendCount (t : List DRow) (y : Int) (d : Int) : Nat :=
  if d ∈ target_districts then ydCount t y d else 0

/-! ### Concrete tables used by witnesses and counterexamples -/

/-- A parsed timestamp on a Monday at 08:00 in January 2020. -/
def mondayMorning : DateTime := { year := 2020, month := 1, hour := 8, weekday := 0 }

/-- A parsed timestamp on a Wednesday at 23:00 in January 2020. -/
def wednesdayNight : DateTime := { year := 2020, month := 1, hour := 23, weekday := 2 }

/-- A fetched row with a parseable timestamp. -/
def rowA : Row := { date := RawDate.valid mondayMorning, district := some 1, other := "a" }

/-- A second fetched row with a parseable timestamp. -/
def rowB : Row := { date := RawDate.valid wednesdayNight, district := some 11, other := "b" }

/-- A fetched row whose timestamp does not parse. -/
def rowBad : Row := { date := RawDate.invalid "garbage", district := some 16, other := "c" }

/-- A source whose page at offset 0 holds `rowA`, whose page at offset
`LIMIT` holds `rowB` and `rowBad`, and whose later pages are empty. -/
def pagedSource : Nat → List Row := fun offset =>
  if offset = 0 then [rowA] else if offset = LIMIT then [rowB, rowBad] else []

/-- A source that answers every offset with the same non-empty page. -/
def unboundedSource : Nat → List Row := fun _ => [rowA]

/-- A year-partitioned source that fails on 2003 and answers every other
year with a single row. -/
def oneFailSource : Nat → Except String (List HRow) := fun yr =>
  if yr = 2003 then Except.error "SourceUnavailable"
  else Except.ok [{ date := RawDate.valid mondayMorning, year := some (Int.ofNat yr),
                    latitude := some 41, longitude := some (-87) }]

/-- A year-partitioned source on which every request fails. -/
def allFailSource : Nat → Except String (List HRow) := fun _ =>
  Except.error "SourceUnavailable"

/-- A one-row derived table whose single row has hour 8. -/
def oneRowTable : List DRow :=
  preprocess [{ date := some mondayMorning, district := some 1, other := "a" }]

/-- A derived row with a Monday-morning timestamp. -/
def dRowX : DRow := deriveRow (some mondayMorning) (some 1) "a"

/-- A derived row with a Wednesday-night timestamp. -/
def dRowY : DRow := deriveRow (some wednesdayNight) (some 11) "b"

/-- A two-row derived table. -/
def tableXY : List DRow := [dRowX, dRowY]

/-- The same two rows in the opposite order. -/
def tableYX : List DRow := [dRowY, dRowX]

/-- A three-row derived table: two rows at Monday 08:00, one at
Wednesday 23:00. -/
def sampleTable : List DRow :=
  preprocess
    [{ date := some mondayMorning, district := some 1, other := "a" },
     { date := some mondayMorning, district := some 1, other := "b" },
     { date := some wednesdayNight, district := some 11, other := "c" }]

/-! ### Lemmas about the pagination loop -/

/-- When the first empty page sits at page index `k` (relative to the
starting offset), the loop collects exactly the `k` preceding pages and
requests exactly the `k + 1` offsets up to and including the empty one. -/
theorem load_loop_eq (source : Nat → List Row) :
    ∀ (k fuel offset : Nat), k < fuel →
      (source (offset + k * LIMIT)).isEmpty = true →
      (∀ j < k, (source (offset + j * LIMIT)).isEmpty = false) →
      load_loop source fuel offset =
        ((List.range k).map (fun i => source (offset + i * LIMIT)),
         (List.range (k + 1)).map (fun i => offset + i * LIMIT)) := by
  intro k
  induction k with
  | zero =>
    intro fuel offset hk hempty _
    match fuel, hk with
    | fuel + 1, _ =>
      simp only [Nat.zero_mul, Nat.add_zero] at hempty
      simp [load_loop, hempty, List.range_succ]
  | succ k ih =>
    intro fuel offset hk hempty hne
    match fuel, hk with
    | fuel + 1, hk =>
      have h0 : (source offset).isEmpty = false := by
        have := hne 0 (Nat.succ_pos k)
        simpa using this
      have harith : ∀ i : Nat, offset + LIMIT + i * LIMIT = offset + (i + 1) * LIMIT := by
        intro i
        rw [Nat.succ_mul]
        omega
      have hrec := ih fuel (offset + LIMIT) (Nat.lt_of_succ_lt_succ hk)
        (by rw [harith k]; exact hempty)
        (by
          intro j hj
          rw [harith j]
          exact hne (j + 1) (Nat.succ_lt_succ hj))
      simp only [load_loop, h0, Bool.false_eq_true, if_false, hrec, Prod.mk.injEq]
      constructor
      · rw [List.range_succ_eq_map, List.map_cons, List.map_map]
        rw [List.cons_eq_cons]
        constructor
        · simp
        · apply List.map_congr_left
          intro i _
          simp only [Function.comp]
          rw [harith i]
      · rw [List.range_succ_eq_map (k + 1), List.map_cons, List.map_map]
        rw [List.cons_eq_cons]
        constructor
        · simp
        · apply List.map_congr_left
          intro i _
          simp only [Function.comp]
          rw [harith i]

/-- The loop issues at most `fuel` requests. -/
theorem load_loop_requests_le (source : Nat → List Row) :
    ∀ (fuel offset : Nat), (load_loop source fuel offset).2.length ≤ fuel := by
  intro fuel
  induction fuel with
  | zero =>
    intro offset
    simp [load_loop]
  | succ fuel ih =>
    intro offset
    by_cases h : (source offset).isEmpty = true
    · simp [load_loop, h]
    · simp only [load_loop, eq_false_of_ne_true h, Bool.false_eq_true, if_false,
        List.length_cons]
      have := ih (offset + LIMIT)
      omega

/-- The year loop appends exactly the successful chunks, in year order,
and requests every year of its list exactly once, whatever the failure
pattern. -/
theorem evolution_loop_eq (ysource : Nat → Except String (List HRow)) :
    ∀ yl : List Nat,
      (evolution_loop ysource yl).1 = yl.filterMap (fun yr => (ysource yr).toOption)
      ∧ (evolution_loop ysource yl).2 = yl := by
  intro yl
  induction yl with
  | nil => simp [evolution_loop]
  | cons yr yrs ih =>
    cases h : ysource yr with
    | ok chunk =>
      have hf : (ysource yr).toOption = some chunk := by rw [h]; rfl
      constructor
      · simp only [evolution_loop, h]
        rw [@List.filterMap_cons_some _ _ (fun y => (ysource y).toOption) yr yrs chunk hf, ih.1]
      · simp only [evolution_loop, h]
        rw [ih.2]
    | error e =>
      have hf : (ysource yr).toOption = none := by rw [h]; rfl
      constructor
      · simp only [evolution_loop, h]
        rw [@List.filterMap_cons_none _ _ (fun y => (ysource y).toOption) yr yrs hf, ih.1]
      · simp only [evolution_loop, h]
        rw [ih.2]

/-! ### Lemmas about the group-by aggregations -/

/-- Summing, over every possible key, the size of that key's group gives
the number of rows whose key cell is non-null. -/
theorem counts_sum {α : Type} {n : Nat} (g : α → Option (Fin n)) (t : List α) :
    ∑ a : Fin n, (t.filter (fun r => decide (g r = some a))).length
      = (t.filter (fun r => decide (g r ≠ none))).length := by
  induction t with
  | nil => simp
  | cons r t ih =>
    cases hgr : g r with
    | none =>
      simp only [List.filter_cons, hgr]
      simpa using ih
    | some v =>
      simp only [List.filter_cons, hgr]
      have hstep : ∀ a : Fin n,
          (if decide (some v = some a) = true then
              r :: t.filter (fun x => decide (g x = some a))
            else t.filter (fun x => decide (g x = some a))).length
            = (t.filter (fun x => decide (g x = some a))).length
              + (if v = a then 1 else 0) := by
        intro a
        by_cases hva : v = a <;> simp [hva]
      rw [Finset.sum_congr rfl (fun a _ => hstep a), Finset.sum_add_distrib, ih]
      simp [Finset.sum_ite_eq]

/-- Dropping the zero-valued entries of a list does not change the sum of
a `Nat`-valued function over it. -/
theorem map_sum_filter_pos {α : Type} (f : α → Nat) (l : List α) :
    ((l.filter (fun a => decide (0 < f a))).map f).sum = (l.map f).sum := by
  induction l with
  | nil => rfl
  | cons a l ih =>
    by_cases h : 0 < f a
    · simp [List.filter_cons, h, ih]
    · have hz : f a = 0 := by omega
      simp [List.filter_cons, hz, ih]

/-- The key column of `crimes_by_hour`: the ascending enumeration of
`0..23` restricted to the hours that occur in the data. -/
theorem crimes_by_hour_keys (t : List DRow) :
    (crimes_by_hour t).map Prod.fst
      = (List.finRange 24).filter (fun h => decide (0 < hourCount t h)) := by
  simp [crimes_by_hour, List.map_map, Function.comp_def]

/-- The entries of `crimes_by_hour` sum to the number of rows with a
non-null derived hour. -/
theorem crimes_by_hour_sum (t : List DRow) :
    ((crimes_by_hour t).map Prod.snd).sum
      = (t.filter (fun r => decide (r.hour ≠ none))).length := by
  have h1 : ((crimes_by_hour t).map Prod.snd)
      = ((List.finRange 24).filter (fun h => decide (0 < hourCount t h))).map
          (fun h => hourCount t h) := by
    simp [crimes_by_hour, List.map_map, Function.comp_def]
  have h2 := map_sum_filter_pos (fun h => hourCount t h) (List.finRange 24)
  rw [h1, h2, ← Fin.sum_univ_def (fun h => hourCount t h)]
  have h3 := counts_sum (fun r : DRow => r.hour) t
  simp only [hourCount]
  exact h3

/-- The entries of `crimes_by_weekday` sum to the number of rows with a
non-null derived weekday. -/
theorem crimes_by_weekday_sum (t : List DRow) :
    ((crimes_by_weekday t).map Prod.snd).sum
      = (t.filter (fun r => decide (r.weekday ≠ none))).length := by
  have h1 : ((crimes_by_weekday t).map Prod.snd)
      = (List.finRange 7).map (fun w => weekdayCount t w) := by
    simp [crimes_by_weekday, List.map_map, Function.comp_def]
  rw [h1, ← Fin.sum_univ_def (fun w => weekdayCount t w)]
  have h3 := counts_sum (fun r : DRow => r.weekday) t
  simp only [weekdayCount]
  exact h3

/-- The pipeline `coerce then derive` is a per-row map. -/
theorem preprocess_coerce_eq_map (table : List Row) :
    preprocess (table.map coerceRow)
      = table.map (fun r => deriveRow (to_datetime_coerce r.date) r.district r.other) := by
  simp [preprocess, coerceRow, List.map_map, Function.comp]

/-- A derived row has a non-null hour exactly when its raw timestamp
parsed. -/
theorem derived_hour_filter (table : List Row) :
    ((preprocess (table.map coerceRow)).filter (fun r => decide (r.hour ≠ none))).length
      = (table.filter (fun r => decide (to_datetime_coerce r.date ≠ none))).length := by
  rw [preprocess_coerce_eq_map, List.filter_map, List.length_map]
  apply congrArg
  apply List.filter_congr
  intro r _
  show decide ((deriveRow (to_datetime_coerce r.date) r.district r.other).hour ≠ none)
      = decide (to_datetime_coerce r.date ≠ none)
  cases to_datetime_coerce r.date <;> rfl

/-- A derived row has a non-null weekday exactly when its raw timestamp
parsed. -/
theorem derived_weekday_filter (table : List Row) :
    ((preprocess (table.map coerceRow)).filter (fun r => decide (r.weekday ≠ none))).length
      = (table.filter (fun r => decide (to_datetime_coerce r.date ≠ none))).length := by
  rw [preprocess_coerce_eq_map, List.filter_map, List.length_map]
  apply congrArg
  apply List.filter_congr
  intro r _
  show decide ((deriveRow (to_datetime_coerce r.date) r.district r.other).weekday ≠ none)
      = decide (to_datetime_coerce r.date ≠ none)
  cases to_datetime_coerce r.date <;> rfl

/-! ### Claim theorems -/

/-- C1 (amended): for every source in which a first empty page appears
within the page ceiling and at least one non-empty page precedes it,
`load_data` terminates, requests exactly the offsets `0, LIMIT, 2*LIMIT,
...` in order up to and including the first empty page, stops there, and
returns the concatenation of all non-empty pages in fetch order (with the
`date` column coerced). -/
theorem load_data_paginates (source : Nat → List Row) (k : Nat)
    (hk : k < MAX_PAGES) (hpos : 0 < k)
    (hempty : (source (k * LIMIT)).isEmpty = true)
    (hne : ∀ j < k, (source (j * LIMIT)).isEmpty = false) :
    load_data source =
      Except.ok (((List.range k).map (fun i => source (i * LIMIT))).flatten.map coerceRow)
    ∧ load_data_offsets source = (List.range (k + 1)).map (fun i => i * LIMIT) := by
  have h := load_loop_eq source k MAX_PAGES 0 hk (by simpa using hempty)
    (by intro j hj; simpa using hne j hj)
  have h1 : (load_loop source MAX_PAGES 0).1 =
      (List.range k).map (fun i => source (i * LIMIT)) := by
    rw [h]
    simp
  have h2 : (load_loop source MAX_PAGES 0).2 =
      (List.range (k + 1)).map (fun i => i * LIMIT) := by
    rw [h]
    simp
  constructor
  · match k, hpos with
    | k + 1, _ =>
      simp only [load_data, h1, List.range_succ_eq_map, List.map_cons]
      rfl
  · simpa only [load_data_offsets] using h2

/-- C1 counterexample: when the very first page is already empty — a
sequence in which a first empty page appears within the page ceiling —
`load_data` does not return the (empty) concatenation of the non-empty
pages, it raises the `pd.concat` error instead. -/
theorem load_data_empty_first_page_cex :
    load_data (fun _ => ([] : List Row)) = Except.error "No objects to concatenate"
    ∧ load_data (fun _ => ([] : List Row)) ≠ Except.ok ([] : List CRow) := by
  have h : load_data (fun _ => ([] : List Row)) =
      Except.error "No objects to concatenate" := rfl
  exact ⟨h, by rw [h]; exact fun hc => Except.noConfusion hc⟩

/-- Witness for C1: a source with non-empty pages at offsets 0 and
`LIMIT` and an empty page at `2 * LIMIT`. -/
theorem load_data_paginates_witness :
    load_data pagedSource = Except.ok [coerceRow rowA, coerceRow rowB, coerceRow rowBad]
    ∧ load_data_offsets pagedSource = [0, LIMIT, 2 * LIMIT] := by
  have h := load_data_paginates pagedSource 2 (by decide) (by decide) (by decide) (by decide)
  exact ⟨by rw [h.1]; rfl, by rw [h.2]; rfl⟩

/-- C4: against every behaviour of the source — including one that never
returns an empty page — `load_data` issues at most `MAX_PAGES` requests
(and, being a total function, terminates). -/
theorem load_data_request_bound (source : Nat → List Row) :
    (load_data_offsets source).length ≤ MAX_PAGES :=
  load_loop_requests_le source MAX_PAGES 0

/-- Witness for C4: the bound at a source that never returns an empty
page. -/
theorem load_data_request_bound_witness :
    (load_data_offsets unboundedSource).length ≤ MAX_PAGES :=
  load_data_request_bound unboundedSource

/-- C5 (amended): the year-partitioned loader issues exactly one request
per year of `2001..2024`, in order, regardless of individual failures —
a failing year is skipped while every remaining year is still requested —
and, provided at least one year's request succeeds, the result is the
concatenation of all successfully fetched years in year order. -/
theorem load_data_for_evolution_chart_spec (ysource : Nat → Except String (List HRow)) :
    evolution_requests ysource = evolutionYears
    ∧ ((∃ yr ∈ evolutionYears, (ysource yr).toOption ≠ none) →
        load_data_for_evolution_chart ysource =
          Except.ok ((evolutionYears.filterMap (fun yr => (ysource yr).toOption)).flatten)) := by
  have h := evolution_loop_eq ysource evolutionYears
  constructor
  · simpa only [evolution_requests] using h.2
  · intro hex
    have hnil : evolutionYears.filterMap (fun yr => (ysource yr).toOption) ≠ [] := by
      rw [Ne, List.filterMap_eq_nil_iff]
      push_neg
      exact hex
    obtain ⟨c, cs, hcons⟩ :
        ∃ c cs, evolutionYears.filterMap (fun yr => (ysource yr).toOption) = c :: cs := by
      cases hl : evolutionYears.filterMap (fun yr => (ysource yr).toOption) with
      | nil => exact absurd hl hnil
      | cons c cs => exact ⟨c, cs, rfl⟩
    simp only [load_data_for_evolution_chart, h.1, hcons]
    rfl

/-- C5 counterexample: when every year's request fails, the claim's
"result is the concatenation of all successfully fetched years" (the
empty table) does not hold — the loader raises the `pd.concat` error
instead. -/
theorem evolution_all_fail_cex :
    load_data_for_evolution_chart allFailSource = Except.error "No objects to concatenate"
    ∧ load_data_for_evolution_chart allFailSource ≠ Except.ok ([] : List HRow) := by
  have h : load_data_for_evolution_chart allFailSource =
      Except.error "No objects to concatenate" := rfl
  exact ⟨h, by rw [h]; exact fun hc => Except.noConfusion hc⟩

/-- Witness for C5: a source failing on 2003 only; every year is still
requested and the result concatenates the 23 successful years. -/
theorem load_data_for_evolution_chart_spec_witness :
    evolution_requests oneFailSource = evolutionYears
    ∧ load_data_for_evolution_chart oneFailSource =
        Except.ok ((evolutionYears.filterMap (fun yr => (oneFailSource yr).toOption)).flatten) :=
  ⟨(load_data_for_evolution_chart_spec oneFailSource).1,
   (load_data_for_evolution_chart_spec oneFailSource).2 ⟨2001, by decide, by decide⟩⟩

/-- C10: when the source yields zero rows in total — the first page is
empty for the offset loader, or every year's request fails for the
year-partitioned loader — the loader raises the error coming from
`pd.concat` on an empty list of chunks instead of returning an empty
table. -/
theorem loaders_error_on_zero_rows :
    (∀ source : Nat → List Row, source 0 = [] →
        load_data source = Except.error "No objects to concatenate")
    ∧ (∀ ysource : Nat → Except String (List HRow),
        (∀ yr ∈ evolutionYears, (ysource yr).toOption = none) →
        load_data_for_evolution_chart ysource = Except.error "No objects to concatenate") := by
  constructor
  · intro source h0
    have h := load_loop_eq source 0 MAX_PAGES 0 (by decide)
      (by simp [h0]) (by intro j hj; omega)
    simp only [load_data, h]
    rfl
  · intro ysource hall
    have h := evolution_loop_eq ysource evolutionYears
    have hnil : evolutionYears.filterMap (fun yr => (ysource yr).toOption) = [] :=
      List.filterMap_eq_nil_iff.mpr hall
    simp only [load_data_for_evolution_chart, h.1, hnil]
    rfl

/-- Witness for C10: the all-empty offset source and the all-failing
year source. -/
theorem loaders_error_on_zero_rows_witness :
    load_data (fun _ => ([] : List Row)) = Except.error "No objects to concatenate"
    ∧ load_data_for_evolution_chart allFailSource = Except.error "No objects to concatenate" :=
  ⟨loaders_error_on_zero_rows.1 (fun _ => []) rfl,
   loaders_error_on_zero_rows.2 allFailSource (fun _ _ => rfl)⟩

/-- C2 counterexample: on a table whose single row has hour 8, the by-hour
aggregation output has exactly one key, not 24 — hours absent from the
data are absent keys, not zero counts. -/
theorem crimes_by_hour_missing_keys_cex :
    (crimes_by_hour oneRowTable).map Prod.fst = [(8 : Fin 24)]
    ∧ ((crimes_by_hour oneRowTable).map Prod.fst).length ≠ 24 := by
  constructor
  · rfl
  · intro hc
    rw [show ((crimes_by_hour oneRowTable).map Prod.fst).length = 1 from rfl] at hc
    exact absurd hc (by omega)

/-- C2 (amended): the by-hour aggregation output keys are exactly the
distinct hours occurring among rows with a non-null derived hour, in
ascending order; each key carries the (positive) count of rows with that
hour, and the counts sum to the number of rows with a non-null derived
hour. -/
theorem crimes_by_hour_spec (t : List DRow) :
    ((crimes_by_hour t).map Prod.fst).Pairwise (fun a b => a < b)
    ∧ (∀ h : Fin 24, h ∈ (crimes_by_hour t).map Prod.fst ↔ ∃ r ∈ t, r.hour = some h)
    ∧ (∀ p ∈ crimes_by_hour t, 0 < p.2 ∧ p.2 = hourCount t p.1)
    ∧ ((crimes_by_hour t).map Prod.snd).sum
        = (t.filter (fun r => decide (r.hour ≠ none))).length := by
  refine ⟨?_, ?_, ?_, crimes_by_hour_sum t⟩
  · rw [crimes_by_hour_keys]
    exact (List.pairwise_lt_finRange 24).sublist (List.filter_sublist _)
  · intro h
    rw [crimes_by_hour_keys, List.mem_filter]
    simp only [List.mem_finRange, true_and, decide_eq_true_eq]
    rw [hourCount, List.length_pos_iff_exists_mem]
    constructor
    · rintro ⟨r, hr⟩
      rw [List.mem_filter] at hr
      exact ⟨r, hr.1, of_decide_eq_true hr.2⟩
    · rintro ⟨r, hrt, hrh⟩
      exact ⟨r, List.mem_filter.mpr ⟨hrt, decide_eq_true hrh⟩⟩
  · intro p hp
    rw [crimes_by_hour, List.mem_map] at hp
    obtain ⟨h, hmem, hph⟩ := hp
    rw [List.mem_filter] at hmem
    subst hph
    exact ⟨of_decide_eq_true hmem.2, rfl⟩

/-- Witness for C2: the amended statement evaluated on the three-row
sample table (hours 8, 8 and 23). -/
theorem crimes_by_hour_spec_witness :
    (∀ p ∈ crimes_by_hour sampleTable, 0 < p.2 ∧ p.2 = hourCount sampleTable p.1)
    ∧ ((crimes_by_hour sampleTable).map Prod.snd).sum
        = (sampleTable.filter (fun r => decide (r.hour ≠ none))).length :=
  ⟨(crimes_by_hour_spec sampleTable).2.2.1, (crimes_by_hour_spec sampleTable).2.2.2⟩

/-- C3: the by-weekday aggregation output has exactly the 7 fixed weekday
names as keys, in canonical Monday-first order; every weekday is a key
even when absent from the data (then with a zero count), and the counts
sum to the number of rows with a non-null derived weekday. -/
theorem crimes_by_weekday_spec (t : List DRow) :
    (crimes_by_weekday t).map Prod.fst = order
    ∧ (∀ w : Fin 7, (day_name w, weekdayCount t w) ∈ crimes_by_weekday t)
    ∧ ((crimes_by_weekday t).map Prod.snd).sum
        = (t.filter (fun r => decide (r.weekday ≠ none))).length := by
  refine ⟨?_, ?_, crimes_by_weekday_sum t⟩
  · simp only [crimes_by_weekday, List.map_map]
    rfl
  · intro w
    rw [crimes_by_weekday, List.mem_map]
    exact ⟨w, List.mem_finRange w, rfl⟩

/-- Witness for C3: the keys and the count total on the three-row sample
table (weekdays Monday, Monday, Wednesday). -/
theorem crimes_by_weekday_spec_witness :
    (crimes_by_weekday sampleTable).map Prod.fst = order
    ∧ ((crimes_by_weekday sampleTable).map Prod.snd).sum
        = (sampleTable.filter (fun r => decide (r.weekday ≠ none))).length :=
  ⟨(crimes_by_weekday_spec sampleTable).1, (crimes_by_weekday_spec sampleTable).2.2⟩

/-- C7: timestamp coercion and feature derivation are total functions
(modelled without any error outcome) and: an unparseable timestamp cell
becomes the null marker; every row is retained (same length, and the
derived row of an unparseable-timestamp row is present with null derived
fields); such rows are excluded from the hour, weekday and
`(year, district)` groupings, whose totals only count rows whose
timestamp parsed. -/
theorem coerce_derive_safe (table : List Row) :
    (preprocess (table.map coerceRow)).length = table.length
    ∧ (∀ s, to_datetime_coerce (RawDate.invalid s) = none)
    ∧ (∀ r ∈ table, to_datetime_coerce r.date = none →
        deriveRow none r.district r.other ∈ preprocess (table.map coerceRow)
        ∧ (deriveRow none r.district r.other).hour = none
        ∧ (deriveRow none r.district r.other).weekday = none
        ∧ (deriveRow none r.district r.other).year = none)
    ∧ ((crimes_by_hour (preprocess (table.map coerceRow))).map Prod.snd).sum
        = (table.filter (fun r => decide (to_datetime_coerce r.date ≠ none))).length
    ∧ ((crimes_by_weekday (preprocess (table.map coerceRow))).map Prod.snd).sum
        = (table.filter (fun r => decide (to_datetime_coerce r.date ≠ none))).length
    ∧ (∀ y d, ydCount (preprocess (table.map coerceRow)) y d
        = (table.filter (fun r =>
            decide ((to_datetime_coerce r.date).map (fun dt => dt.year) = some y
              ∧ r.district = some d))).length) := by
  refine ⟨?_, fun s => rfl, ?_, ?_, ?_, ?_⟩
  · rw [preprocess_coerce_eq_map, List.length_map]
  · intro r hr hnone
    refine ⟨?_, rfl, rfl, rfl⟩
    rw [preprocess_coerce_eq_map]
    have hm := List.mem_map_of_mem
      (fun r : Row => deriveRow (to_datetime_coerce r.date) r.district r.other) hr
    simp only at hm
    rwa [hnone] at hm
  · rw [crimes_by_hour_sum, derived_hour_filter]
  · rw [crimes_by_weekday_sum, derived_weekday_filter]
  · intro y d
    rw [ydCount, preprocess_coerce_eq_map, List.filter_map, List.length_map]
    apply congrArg
    apply List.filter_congr
    intro r _
    rfl

/-- Witness for C7: evaluation on a two-row table whose second row has an
unparseable timestamp. -/
theorem coerce_derive_safe_witness :
    (preprocess ([rowA, rowBad].map coerceRow)).length = [rowA, rowBad].length
    ∧ ((crimes_by_hour (preprocess ([rowA, rowBad].map coerceRow))).map Prod.snd).sum
        = ([rowA, rowBad].filter (fun r => decide (to_datetime_coerce r.date ≠ none))).length :=
  ⟨(coerce_derive_safe [rowA, rowBad]).1, (coerce_derive_safe [rowA, rowBad]).2.2.2.1⟩

/-- C8: the feature deriver is idempotent — re-running the derivation
block on a table it has already been applied to leaves the table
unchanged (and the re-derivation map is idempotent on any derived
table). -/
theorem derive_idempotent (t : List CRow) :
    reDerive (preprocess t) = preprocess t
    ∧ ∀ u : List DRow, reDerive (reDerive u) = reDerive u := by
  constructor
  · simp only [preprocess, reDerive, List.map_map]
    exact List.map_congr_left (fun r _ => rfl)
  · intro u
    simp only [reDerive, List.map_map]
    exact List.map_congr_left (fun r _ => rfl)

/-- Witness for C8: idempotence evaluated on a concrete two-row coerced
table. -/
theorem derive_idempotent_witness :
    reDerive (preprocess ([rowA, rowBad].map coerceRow))
      = preprocess ([rowA, rowBad].map coerceRow) :=
  (derive_idempotent ([rowA, rowBad].map coerceRow)).1

/-- C9: every aggregation — by hour, by weekday, by `(year, district)`,
and the district-filtered trend counts — is deterministic and insensitive
to input row order: permuting the rows leaves every aggregate value (and
for the hour and weekday charts the whole keyed output) unchanged. -/
theorem aggregates_order_insensitive (t u : List DRow) (hperm : t.Perm u) :
    crimes_by_hour t = crimes_by_hour u
    ∧ crimes_by_weekday t = crimes_by_weekday u
    ∧ (∀ y d, ydCount t y d = ydCount u y d)
    ∧ (∀ y d, trendCount t y d = trendCount u y d) := by
  have hflen : ∀ p : DRow → Bool, (t.filter p).length = (u.filter p).length :=
    fun p => (hperm.filter p).length_eq
  have hh : hourCount t = hourCount u := funext (fun h => hflen _)
  have hw : weekdayCount t = weekdayCount u := funext (fun w => hflen _)
  have hyd : ∀ y d, ydCount t y d = ydCount u y d := fun y d => hflen _
  refine ⟨?_, ?_, hyd, ?_⟩
  · simp only [crimes_by_hour, hh]
  · simp only [crimes_by_weekday, hw]
  · intro y d
    simp only [trendCount, hyd y d]

/-- Witness for C9: the two-row derived table and its transposition. -/
theorem aggregates_order_insensitive_witness :
    crimes_by_hour tableXY = crimes_by_hour tableYX
    ∧ crimes_by_weekday tableXY = crimes_by_weekday tableYX :=
  ⟨(aggregates_order_insensitive tableXY tableYX (List.Perm.swap dRowY dRowX [])).1,
   (aggregates_order_insensitive tableXY tableYX (List.Perm.swap dRowY dRowX [])).2.1⟩

end Dashboard
